import Mathlib

/-!
Shallow embedding of `src/scripts/metabase_setup.py`.

The script is a sequential REST client.  We embed the parsed JSON bodies of
HTTP responses as `JVal`, an HTTP outcome as `Except String HttpResponse`
(`Except.error e` models a raised exception whose text is `e`, covering both
transport failures and JSON-parse failures inside a `try` block), and each
method of class `MetabaseSetup` as a pure function of the responses the
corresponding requests receive.  `main` is embedded as `mainRun`, a function
from an environment of responses to the exit code, the number of
`POST /api/dataset` calls issued, and a trace of session-token events.
-/

/-- JSON values, as produced by `response.json()` in the script. -/
inductive JVal where
  | jnull
  | jbool (b : Bool)
  | jnum (n : Int)
  | jstr (s : String)
  | jarr (xs : List JVal)
  | jobj (fields : List (String × JVal))


/-- Association-list lookup used by `jget`; first binding wins, as in a
Python dict rendered as an ordered field list. -/
def jlookup : List (String × JVal) → String → Option JVal
  | [], _ => none
  | (k, v) :: rest, key => if k = key then some v else jlookup rest key

/-- Models Python `d.get(key)` on a dict.  On a non-object value Python would
raise; we return `none` there, and theorems whose meaning depends on that
distinction carry an explicit well-formedness hypothesis instead. -/
def jget (j : JVal) (key : String) : Option JVal :=
  match j with
  | .jobj fields => jlookup fields key
  | _ => none

/-- Models Python `d.get(key, default)` on a dict (same caveat as `jget`). -/
def pyGetD (j : JVal) (key : String) (dflt : JVal) : JVal :=
  (jget j key).getD dflt

/-- Whether a JSON value is an object (a Python dict). -/
def jIsObj : JVal → Bool
  | .jobj _ => true
  | _ => false

/-- Models the Python comparison `v == "s"` where `v` came from a JSON
lookup that may have returned `None`. -/
def jIsStrVal : Option JVal → String → Bool
  | some (.jstr t), s => t == s
  | _, _ => false

/-- Python truthiness of a JSON value. -/
def truthyJ : JVal → Bool
  | .jnull => false
  | .jbool b => b
  | .jnum n => !(n == 0)
  | .jstr s => !(s == "")
  | .jarr xs => !xs.isEmpty
  | .jobj fields => !fields.isEmpty

/-- Python truthiness of a lookup result that may be `None`. -/
def truthyO : Option JVal → Bool
  | none => false
  | some v => truthyJ v

/-- An HTTP response whose body has been parsed as JSON. -/
structure HttpResponse where
  status_code : Nat
  json : JVal


/-- Outcome of one HTTP request: a response, or a raised exception with its
text (connection error, timeout, or body that fails to parse as JSON). -/
abbrev RespE := Except String HttpResponse

/-- The per-instance state of class `MetabaseSetup`: the only mutable field
is `self.session_token` (initialized to `None` in `__init__`). -/
structure MB where
  session_token : Option JVal


/-- `_headers`: the value sent as the `X-Metabase-Session` header. -/
def headersOf (s : MB) : Option JVal :=
  s.session_token

/-! ### wait_for_metabase (lines 28-48) -/

/-- One iteration of the readiness-polling loop: the outcome of the
`GET /api/health` request and the wall-clock seconds it consumed. -/
structure PollStep where
  result : RespE
  duration : Nat


/-- The success condition of one poll: HTTP 200 and a body whose `status`
field equals the string `ok` (lines 36-40). -/
def pollReady (p : PollStep) : Bool :=
  match p.result with
  | .ok r => r.status_code == 200 && jIsStrVal (jget r.json "status") "ok"
  | .error _ => false

/-- The `while time.time() - start_time < timeout` loop of
`wait_for_metabase`.  `polls` is the stream of poll outcomes; each iteration
advances elapsed time by the request duration plus the sleep `interval`.
Transport exceptions are swallowed (lines 41-42) and polling continues.
An exhausted stream is read as the deadline passing: the loop exits with
`false` (line 48). -/
def waitLoop (timeout interval : Nat) : List PollStep → Nat → Bool
  | [], _ => false
  | p :: rest, elapsed =>
    if elapsed < timeout then
      if pollReady p then true
      else waitLoop timeout interval rest (elapsed + p.duration + interval)
    else false

/-- `wait_for_metabase(timeout, interval)` over a given sequence of poll
outcomes. -/
def wait_for_metabase (timeout interval : Nat) (polls : List PollStep) : Bool :=
  waitLoop timeout interval polls 0

/-! ### setup_admin_user and login (lines 55-126) -/

/-- `login` (lines 106-126): returns the success boolean together with the
new `self.session_token` (written only on HTTP 200, from `data.get("id")`). -/
def login (resp : RespE) : Bool × Option JVal :=
  match resp with
  | .ok r =>
    if r.status_code = 200 then (true, jget r.json "id") else (false, none)
  | .error _ => (false, none)

/-- Result of `setup_admin_user`: the returned boolean, which of the two
POST requests (`/api/setup`, `/api/session`) were issued, and the value of
`self.session_token` afterwards (`none` when it was left unassigned). -/
structure AdminOutcome where
  ok : Bool
  didPostSetup : Bool
  didPostSession : Bool
  token : Option JVal


/-- `setup_admin_user` (lines 55-104): reads the setup token from the
`/api/session/properties` body `props`; if it is falsy, delegates to
`login`; otherwise posts to `/api/setup` and on HTTP 200 stores
`data.get("id")` as the session token. -/
def setup_admin_user (props : JVal) (setupResp loginResp : RespE) : AdminOutcome :=
  let setup_token := jget props "setup-token"
  if truthyO setup_token = false then
    let r := login loginResp
    ⟨r.1, false, true, r.2⟩
  else
    match setupResp with
    | .ok r =>
      if r.status_code = 200 then ⟨true, true, false, jget r.json "id"⟩
      else ⟨false, true, false, none⟩
    | .error _ => ⟨false, true, false, none⟩

/-! ### add_flink_database, sync_database, list_tables, run_query
    (lines 132-227) -/

/-- `add_flink_database` (lines 132-173): on HTTP 200 returns
`data.get("id")`; on any other status or a raised exception returns `None`. -/
def add_flink_database (s : MB) (resp : RespE) : Option JVal :=
  match resp with
  | .ok r => if r.status_code = 200 then jget r.json "id" else none
  | .error _ => none

/-- `sync_database` (lines 175-193): true exactly on HTTP 200. -/
def sync_database (s : MB) (resp : RespE) : Bool :=
  match resp with
  | .ok r => r.status_code = 200
  | .error _ => false

/-- `list_tables` (lines 195-210): on HTTP 200 returns
`data.get("tables", [])`; on any other status or exception returns `[]`. -/
def list_tables (s : MB) (resp : RespE) : JVal :=
  match resp with
  | .ok r => if r.status_code = 200 then pyGetD r.json "tables" (.jarr []) else .jarr []
  | .error _ => .jarr []

/-- `run_query` (lines 212-227): returns `response.json()` as-is on a
response, and a one-entry dict binding the key `error` to the exception
text when the request or the JSON parse raises. -/
def run_query (s : MB) (resp : RespE) : JVal :=
  match resp with
  | .ok r => r.json
  | .error e => .jobj [("error", .jstr e)]

/-! ### create_simple_question (lines 229-286) -/

/-- The generator `next((t for t in tables if t.get("name") == table_name), None)`
(line 248).  On a non-dict element Python raises inside the enclosing `try`,
which we model as `Except.error`. -/
def findTable : List JVal → String → Except Unit (Option JVal)
  | [], _ => .ok none
  | t :: ts, table_name =>
    match t with
    | .jobj _ =>
      if jIsStrVal (jget t "name") table_name then .ok (some t)
      else findTable ts table_name
    | _ => .error ()

/-- The JSON body posted to `/api/card` (lines 259-268). -/
def questionBody (db_id : JVal) (name : String) (table_id : JVal) : JVal :=
  .jobj
    [("name", .jstr name),
     ("dataset_query",
       .jobj
         [("database", db_id),
          ("type", .jstr "query"),
          ("query", .jobj [("source-table", table_id), ("limit", .jnum 100)])]),
     ("display", .jstr "table"),
     ("visualization_settings", .jobj [])]

/-- Result of `create_simple_question`: the body posted to `/api/card`
(`none` when that request was never issued) and the returned card id
(`none` for failure). -/
structure QuestionOutcome where
  cardRequest : Option JVal
  result : Option JVal

/-- `create_simple_question` (lines 229-286): fetch metadata, look the table
up by name, and only on success post the question; returns
`response.json().get("id")` on HTTP 200 and `None` otherwise. -/
def create_simple_question (s : MB) (db_id : JVal) (table_name name : String)
    (metaResp cardResp : RespE) : QuestionOutcome :=
  match metaResp with
  | .error _ => ⟨none, none⟩
  | .ok r =>
    if r.status_code ≠ 200 then ⟨none, none⟩
    else
      match pyGetD r.json "tables" (.jarr []) with
      | .jarr tables =>
        match findTable tables table_name with
        | .error _ => ⟨none, none⟩
        | .ok none => ⟨none, none⟩
        | .ok (some t) =>
          let table_id := pyGetD t "id" .jnull
          let body := questionBody db_id name table_id
          match cardResp with
          | .ok r2 =>
            if r2.status_code = 200 then ⟨some body, jget r2.json "id"⟩
            else ⟨some body, none⟩
          | .error _ => ⟨some body, none⟩
      | _ => ⟨none, none⟩

/-! ### The per-test branch of main (lines 383-396) -/

/-- Whether a query result dict reports `status == "completed"`. -/
def completedQ (result : JVal) : Bool :=
  jIsStrVal (jget result "status") "completed"

/-- `result.get("data", {}).get("rows", [])` (line 388). -/
def rowsOf (result : JVal) : JVal :=
  pyGetD (pyGetD result "data" (.jobj [])) "rows" (.jarr [])

/-- What main records for one test of the battery: the branch taken, the row
list bound in the success branch, and the error value surfaced in the
failure branch (lines 387-396). -/
structure TestEval where
  passed : Bool
  rows : Option JVal
  errMsg : Option JVal

/-- The body of the test-battery loop for one query result (lines 387-396):
a `completed` status is a pass and binds the row list; any other outcome is
a failure and surfaces `result.get("error", "Unknown error")`. -/
def testOutcome (result : JVal) : TestEval :=
  if completedQ result then ⟨true, some (rowsOf result), none⟩
  else ⟨false, none, some (pyGetD result "error" (.jstr "Unknown error"))⟩

/-! ### main (lines 289-575) -/

/-- The environment of one run: the command-line flag `--skip-wait` and the
outcome of every HTTP request main can issue, in program order.
`datasetResps i` is the outcome of the i-th `POST /api/dataset` call:
indices 0-11 are the bounded-table battery, 12-16 the DDL battery, 17-21 the
catalog exploration queries, and 22 the streaming test. -/
structure Env where
  skip_wait : Bool
  polls : List PollStep
  props : JVal
  setupResp : RespE
  loginResp : RespE
  dbResp : RespE
  syncResp : RespE
  metaResp : RespE
  datasetResps : Nat → RespE

/-- Session-token events of a run: an assignment to `self.session_token`,
or a request sent with the `X-Metabase-Session` header holding the given
value. -/
inductive Event where
  | authWrite (tok : Option JVal)
  | authedRequest (header : Option JVal)

/-- Observable outcome of `main`: the process exit code, the ordered trace
of session-token events, the number of `POST /api/dataset` calls issued,
and the final value of the `all_passed` flag (false on the early-exit paths,
where the flag never exists). -/
structure RunResult where
  exitCode : Nat
  trace : List Event
  datasetCalls : Nat
  finalFlag : Bool

/-- The readiness gate (lines 309-311): passes when `--skip-wait` was given
or `wait_for_metabase()` (defaults: timeout 300, interval 5) returns true. -/
def gateWait (env : Env) : Bool :=
  env.skip_wait || wait_for_metabase 300 5 env.polls

/-- The `setup_admin_user` call of main (lines 314-316). -/
def adminOutcome (env : Env) : AdminOutcome :=
  setup_admin_user env.props env.setupResp env.loginResp

/-- The `MetabaseSetup` instance as it stands after `setup_admin_user`. -/
def mainState (env : Env) : MB :=
  ⟨(adminOutcome env).token⟩

/-- The `if not db_id` gate of main (lines 321-327). -/
def dbGate (env : Env) : Bool :=
  truthyO (add_flink_database (mainState env) env.dbResp)

/-- The `if tables ... else sys.exit(1)` gate of main (lines 340-348). -/
def tablesGate (env : Env) : Bool :=
  truthyJ (list_tables (mainState env) env.metaResp)

/-- The `all_passed` flag after the 12-query bounded-table battery
(lines 382-396): an and-fold of the per-test outcomes starting from `True`. -/
def batteryFlag (s : MB) (d : Nat → RespE) : Bool :=
  (List.range 12).foldl (fun acc i => acc && (testOutcome (run_query s (d i))).passed) true

/-- The `ddl_passed` flag after the 5-query DDL battery (lines 429-441). -/
def ddlFlag (s : MB) (d : Nat → RespE) : Bool :=
  (List.range 5).foldl
    (fun acc i => acc && (testOutcome (run_query s (d (12 + i)))).passed) true

/-- Whether the streaming test (dataset call 22, lines 498-501) reports a
`completed` status. -/
def streamingOk (env : Env) : Bool :=
  completedQ (run_query (mainState env) (env.datasetResps 22))

/-- The value of `all_passed` at the exit check (line 574): the battery and
DDL results are and-folded (lines 396, 444-445), the five catalog queries
(lines 461-474) never touch the flag, and the streaming branch (line 512)
overwrites the flag with `True` whenever the streaming query completes. -/
def finalFlag (env : Env) : Bool :=
  if streamingOk env then true
  else batteryFlag (mainState env) env.datasetResps && ddlFlag (mainState env) env.datasetResps

/-- `main` (lines 289-575) as a function of the run environment.  The four
early exits (readiness, admin setup, database registration, empty table
list) return exit code 1 before any dataset call; otherwise all 23 dataset
calls are issued and the exit code is 0 exactly when `all_passed` is true at
line 574.  The trace records the single token assignment and then one
authenticated request each for `POST /api/database`, `POST .../sync`,
`GET .../metadata`, and the 23 `POST /api/dataset` calls, in program
order. -/
def mainRun (env : Env) : RunResult :=
  if gateWait env = false then ⟨1, [], 0, false⟩
  else if (adminOutcome env).ok = false then ⟨1, [], 0, false⟩
  else
    let tok := (adminOutcome env).token
    let s := mainState env
    if dbGate env = false then
      ⟨1, Event.authWrite tok :: List.replicate 1 (Event.authedRequest (headersOf s)), 0, false⟩
    else
      let _sync := sync_database s env.syncResp
      if tablesGate env = false then
        ⟨1, Event.authWrite tok :: List.replicate 3 (Event.authedRequest (headersOf s)), 0, false⟩
      else
        ⟨if finalFlag env then 0 else 1,
         Event.authWrite tok :: List.replicate 26 (Event.authedRequest (headersOf s)),
         23, finalFlag env⟩

/-! ### Well-formedness of response bodies

The script calls `.get` on several response bodies outside of any
`try` block (e.g. `data.get("status")` in the polling loop, and
`result.get(...)` in the test-battery loop of main); on a body that is not
a JSON object, CPython would raise there instead of taking either branch.
The theorems below therefore restrict those bodies to JSON objects, which
is the domain on which this embedding is faithful. -/

/-- A response outcome whose parsed body, if any, is a JSON object. -/
def wfResp : RespE → Bool
  | .ok r => jIsObj r.json
  | .error _ => true

/-- A query-result body on which the battery loop of main is crash-free:
the body is an object, its `data` field (if present) is an object, and that
object's `rows` field (if present) is a list. -/
def wfResult (j : JVal) : Bool :=
  jIsObj j &&
    (match jget j "data" with
     | some d =>
       jIsObj d &&
         (match jget d "rows" with
          | some (.jarr _) => true
          | some _ => false
          | none => true)
     | none => true)

/-- A dataset-call outcome on which the battery loop of main is crash-free. -/
def wfQueryResp : RespE → Bool
  | .ok r => wfResult r.json
  | .error _ => true

/-- A table entry over which the reporting loops of main (lines 343-345 and
553-569) are crash-free: a dict whose `fields` entry, if present, is a list. -/
def wfTableEntry (t : JVal) : Bool :=
  jIsObj t &&
    (match jget t "fields" with
     | some (.jarr _) => true
     | some _ => false
     | none => true)

/-- Crash-freedom of a whole run environment: every body main dereferences
with `.get` outside a `try` block is an object of the expected shape. -/
def wfEnv (env : Env) : Bool :=
  env.polls.all (fun p => wfResp p.result) &&
  jIsObj env.props &&
  (match list_tables (mainState env) env.metaResp with
   | .jarr tables => tables.all wfTableEntry
   | _ => false) &&
  (List.range 23).all (fun i => wfQueryResp (env.datasetResps i))

/-! ### Helper lemmas -/

/-- An and-fold over a list equals the accumulator conjoined with `all`. -/
theorem foldl_and_eq_all (f : Nat → Bool) :
    ∀ (l : List Nat) (acc : Bool),
      l.foldl (fun a i => a && f i) acc = (acc && l.all f) := by
  intro l
  induction l with
  | nil => intro acc; simp
  | cons x xs ih =>
    intro acc
    simp only [List.foldl_cons, List.all_cons, ih (acc && f x), Bool.and_assoc]

/-- `List.all` only looks at the values of its predicate on members. -/
theorem all_congr_of_mem {α : Type} {f g : α → Bool} :
    ∀ {l : List α}, (∀ x ∈ l, f x = g x) → l.all f = l.all g := by
  intro l
  induction l with
  | nil => intro _; rfl
  | cons x xs ih =>
    intro h
    simp only [List.all_cons, h x (by simp), ih fun y hy => h y (by simp [hy])]

/-- A true readiness poll inside the loop yields a witness in the stream. -/
theorem waitLoop_true_exists (timeout interval : Nat) :
    ∀ (polls : List PollStep) (elapsed : Nat),
      waitLoop timeout interval polls elapsed = true →
      ∃ p ∈ polls, pollReady p = true := by
  intro polls
  induction polls with
  | nil => intro elapsed h; simp [waitLoop] at h
  | cons p rest ih =>
    intro elapsed h
    rw [waitLoop] at h
    by_cases he : elapsed < timeout
    · rw [if_pos he] at h
      by_cases hp : pollReady p = true
      · exact ⟨p, by simp, hp⟩
      · rw [if_neg hp] at h
        obtain ⟨q, hq, hqr⟩ := ih _ h
        exact ⟨q, by simp [hq], hqr⟩
    · rw [if_neg he] at h
      exact absurd h (by simp)

/-- If no poll in the stream meets the readiness condition, the loop returns
false. -/
theorem waitLoop_false_of_none (timeout interval : Nat) :
    ∀ (polls : List PollStep) (elapsed : Nat),
      (∀ p ∈ polls, pollReady p = false) →
      waitLoop timeout interval polls elapsed = false := by
  intro polls
  induction polls with
  | nil => intro elapsed _; rfl
  | cons p rest ih =>
    intro elapsed h
    rw [waitLoop]
    by_cases he : elapsed < timeout
    · rw [if_pos he, h p (by simp), if_neg (by simp)]
      exact ih _ fun q hq => h q (by simp [hq])
    · rw [if_neg he]

/-! ### Claims -/

/-- C3: `wait_for_metabase` returns true only when some poll within the
timeout got HTTP 200 with a body whose `status` field equals `ok`
(`pollReady`); whenever no poll in the sequence meets that condition —
transport errors and 200 responses with a different status included — it
returns false once the timeout elapses.  The well-formedness hypothesis
restricts 200 bodies to JSON objects, the domain on which the embedding of
`data.get` is faithful (CPython raises on a non-object body there). -/
theorem wait_for_metabase_correct (timeout interval : Nat) (polls : List PollStep)
    (hwf : polls.all (fun p => wfResp p.result) = true) :
    (wait_for_metabase timeout interval polls = true →
      ∃ p ∈ polls, pollReady p = true) ∧
    ((∀ p ∈ polls, pollReady p = false) →
      wait_for_metabase timeout interval polls = false) := by
  constructor
  · intro h
    exact waitLoop_true_exists timeout interval polls 0 h
  · intro h
    exact waitLoop_false_of_none timeout interval polls 0 h

/-- Witness for C3: a single connection-refused poll makes the wait fail. -/
theorem wait_for_metabase_correct_witness :
    wait_for_metabase 300 5 [⟨.error "connection refused", 1⟩] = false := by
  refine (wait_for_metabase_correct 300 5 [⟨.error "connection refused", 1⟩] rfl).2 ?_
  intro p hp
  rw [List.mem_singleton] at hp
  subst hp
  rfl

/-- C4: in `setup_admin_user`, for a fixed setup-status body, the bootstrap
POST to `/api/setup` is issued exactly when the setup token read from the
body is (truthily) present, the login POST to `/api/session` is issued
exactly when it is not, and the two are never equal: exactly one of the two
paths executes.  The hypothesis restricts the setup-status body to a JSON
object, the domain on which the embedding of `props.get("setup-token")` is
faithful. -/
theorem setup_admin_user_one_path (props : JVal) (setupResp loginResp : RespE)
    (hobj : jIsObj props = true) :
    (setup_admin_user props setupResp loginResp).didPostSetup
        = truthyO (jget props "setup-token") ∧
    (setup_admin_user props setupResp loginResp).didPostSession
        = !truthyO (jget props "setup-token") ∧
    ¬((setup_admin_user props setupResp loginResp).didPostSetup
        = (setup_admin_user props setupResp loginResp).didPostSession) := by
  unfold setup_admin_user
  by_cases h : truthyO (jget props "setup-token") = false
  · simp [h]
  · have h2 : truthyO (jget props "setup-token") = true := by
      cases hb : truthyO (jget props "setup-token") <;> simp_all
    rw [if_neg h, h2]
    cases setupResp with
    | ok r =>
      by_cases h200 : r.status_code = 200 <;> simp [h200]
    | error e => simp

/-- Witness for C4: with no setup token in the properties body, only the
login path runs. -/
theorem setup_admin_user_one_path_witness :
    (setup_admin_user (JVal.jobj []) (.error "down")
        (.ok ⟨200, .jobj [("id", .jstr "sess")]⟩)).didPostSession = true := by
  have h := setup_admin_user_one_path (JVal.jobj []) (.error "down")
    (.ok ⟨200, .jobj [("id", .jstr "sess")]⟩) rfl
  simpa using h.2.1

/-- C5: the test-battery branch of main treats a result whose `status`
field is `completed` as a success and binds its `data.rows` list (an actual
list, possibly empty, whenever the body is well-formed); a result with any
other status value — or no status at all — is a failed test whose
`error` field (defaulting to the string `Unknown error`) is surfaced. -/
theorem battery_test_semantics (result : JVal) :
    (jget result "status" = some (JVal.jstr "completed") →
      (testOutcome result).passed = true ∧
      (testOutcome result).rows = some (rowsOf result)) ∧
    (∀ v, jget result "status" = some v → v ≠ JVal.jstr "completed" →
      (testOutcome result).passed = false ∧
      (testOutcome result).errMsg
          = some (pyGetD result "error" (.jstr "Unknown error"))) ∧
    (jget result "status" = none → (testOutcome result).passed = false) ∧
    (wfResult result = true → completedQ result = true →
      ∃ rows, (testOutcome result).rows = some (JVal.jarr rows)) := by
  refine ⟨?_, ?_, ?_, ?_⟩
  · intro h
    have hc : completedQ result = true := by
      unfold completedQ
      rw [h]
      rfl
    simp [testOutcome, hc]
  · intro v hv hne
    have hc : completedQ result = false := by
      unfold completedQ
      rw [hv]
      cases v with
      | jstr t =>
        have ht : t ≠ "completed" := fun ht => hne (by rw [ht])
        simp [jIsStrVal, ht]
      | jnull => rfl
      | jbool b => rfl
      | jnum n => rfl
      | jarr xs => rfl
      | jobj fields => rfl
    simp [testOutcome, hc]
  · intro h
    have hc : completedQ result = false := by
      unfold completedQ
      rw [h]
      rfl
    simp [testOutcome, hc]
  · intro hwf hc
    unfold wfResult at hwf
    unfold testOutcome rowsOf
    rw [hc]
    simp only [Bool.and_eq_true] at hwf
    cases hd : jget result "data" with
    | none => exact ⟨[], by simp only [pyGetD, hd]; rfl⟩
    | some d =>
      rw [hd] at hwf
      have hwf2 : (jIsObj d &&
          (match jget d "rows" with
           | some (JVal.jarr _) => true
           | some _ => false
           | none => true)) = true := hwf.2
      cases hr : jget d "rows" with
      | none =>
        cases d with
        | jobj fs => exact ⟨[], by simp [pyGetD, hd, hr]⟩
        | jnull => simp_all [jIsObj]
        | jbool b => simp_all [jIsObj]
        | jnum n => simp_all [jIsObj]
        | jstr t => simp_all [jIsObj]
        | jarr xs => simp_all [jIsObj]
      | some rv =>
        rw [hr] at hwf2
        cases rv with
        | jarr rows => exact ⟨rows, by simp [pyGetD, hd, hr]⟩
        | jnull => simp_all
        | jbool b => simp_all
        | jnum n => simp_all
        | jstr t => simp_all
        | jobj fs => simp_all

/-- Witness for C5: a completed result with two rows passes and binds them;
applied through the theorem at a concrete body. -/
theorem battery_test_semantics_witness :
    (testOutcome (JVal.jobj
        [("status", .jstr "completed"),
         ("data", .jobj [("rows", .jarr [.jnum 1, .jnum 2])])])).passed = true := by
  exact ((battery_test_semantics (JVal.jobj
      [("status", .jstr "completed"),
       ("data", .jobj [("rows", .jarr [.jnum 1, .jnum 2])])])).1 rfl).1

/-- C6: `add_flink_database` returns the id assigned by the service exactly
on HTTP 200 (in particular any positive integer id the service assigns is
returned as-is); every non-200 response and every raised transport error
yields `None`. -/
theorem add_flink_database_id (s : MB) (r : HttpResponse) (e : String) (n : Int) :
    (r.status_code = 200 → jget r.json "id" = some (.jnum n) → 0 < n →
      add_flink_database s (.ok r) = some (.jnum n)) ∧
    (r.status_code ≠ 200 → add_flink_database s (.ok r) = none) ∧
    add_flink_database s (.error e) = none := by
  refine ⟨?_, ?_, rfl⟩
  · intro h200 hid _
    simp [add_flink_database, h200, hid]
  · intro h200
    simp [add_flink_database, h200]

/-- Witness for C6: a 200 response assigning id 7 is returned as id 7. -/
theorem add_flink_database_id_witness :
    add_flink_database ⟨some (.jstr "sess")⟩
        (.ok ⟨200, .jobj [("id", .jnum 7)]⟩) = some (.jnum 7) := by
  exact (add_flink_database_id ⟨some (.jstr "sess")⟩
    ⟨200, .jobj [("id", .jnum 7)]⟩ "unused" 7).1 rfl rfl (by norm_num)

/-- C8: `create_simple_question` returns failure without issuing the
`/api/card` request whenever the metadata fetch raises, returns a non-200
status, or the table lookup finds no table of the given name; when the
lookup succeeds it posts exactly the minimal table-scan question for the
found table id, and returns the created card id on HTTP 200 and `None` on
any other outcome of that request. -/
theorem create_simple_question_spec (s : MB) (db_id : JVal)
    (table_name name : String) (metaResp cardResp : RespE) :
    (∀ e, metaResp = .error e →
      create_simple_question s db_id table_name name metaResp cardResp
        = ⟨none, none⟩) ∧
    (∀ r, metaResp = .ok r → r.status_code ≠ 200 →
      create_simple_question s db_id table_name name metaResp cardResp
        = ⟨none, none⟩) ∧
    (∀ r tables, metaResp = .ok r → r.status_code = 200 →
      pyGetD r.json "tables" (.jarr []) = .jarr tables →
      findTable tables table_name = .ok none →
      create_simple_question s db_id table_name name metaResp cardResp
        = ⟨none, none⟩) ∧
    (∀ r tables t, metaResp = .ok r → r.status_code = 200 →
      pyGetD r.json "tables" (.jarr []) = .jarr tables →
      findTable tables table_name = .ok (some t) →
      (create_simple_question s db_id table_name name metaResp cardResp).cardRequest
          = some (questionBody db_id name (pyGetD t "id" .jnull)) ∧
      (∀ r2, cardResp = .ok r2 → r2.status_code = 200 →
        (create_simple_question s db_id table_name name metaResp cardResp).result
          = jget r2.json "id") ∧
      (∀ r2, cardResp = .ok r2 → r2.status_code ≠ 200 →
        (create_simple_question s db_id table_name name metaResp cardResp).result
          = none) ∧
      (∀ e2, cardResp = .error e2 →
        (create_simple_question s db_id table_name name metaResp cardResp).result
          = none)) := by
  refine ⟨?_, ?_, ?_, ?_⟩
  · intro e hm
    subst hm
    rfl
  · intro r hm h200
    subst hm
    simp [create_simple_question, h200]
  · intro r tables hm h200 htab hfind
    subst hm
    simp [create_simple_question, h200, htab, hfind]
  · intro r tables t hm h200 htab hfind
    subst hm
    refine ⟨?_, ?_, ?_, ?_⟩
    · cases cardResp with
      | ok r2 =>
        by_cases hc : r2.status_code = 200 <;>
          simp [create_simple_question, h200, htab, hfind, hc]
      | error e2 => simp [create_simple_question, h200, htab, hfind]
    · intro r2 hc h2
      subst hc
      simp [create_simple_question, h200, htab, hfind, h2]
    · intro r2 hc h2
      subst hc
      simp [create_simple_question, h200, htab, hfind, h2]
    · intro e2 hc
      subst hc
      simp [create_simple_question, h200, htab, hfind]

/-- Witness for C8: a successful lookup and a 200 card response return the
created id 42. -/
theorem create_simple_question_spec_witness :
    (create_simple_question ⟨some (.jstr "sess")⟩ (.jnum 1) "users" "All users"
        (.ok ⟨200, .jobj [("tables",
          .jarr [.jobj [("name", .jstr "users"), ("id", .jnum 3)]])]⟩)
        (.ok ⟨200, .jobj [("id", .jnum 42)]⟩)).result = some (.jnum 42) := by
  have h := (create_simple_question_spec ⟨some (.jstr "sess")⟩ (.jnum 1) "users"
    "All users"
    (.ok ⟨200, .jobj [("tables",
      .jarr [.jobj [("name", .jstr "users"), ("id", .jnum 3)]])]⟩)
    (.ok ⟨200, .jobj [("id", .jnum 42)]⟩)).2.2.2
    ⟨200, .jobj [("tables",
      .jarr [.jobj [("name", .jstr "users"), ("id", .jnum 3)]])]⟩
    [.jobj [("name", .jstr "users"), ("id", .jnum 3)]]
    (.jobj [("name", .jstr "users"), ("id", .jnum 3)])
    rfl rfl rfl rfl
  exact (h.2.1 ⟨200, .jobj [("id", .jnum 42)]⟩ rfl rfl).trans rfl

/-- C9 counterexample: when the service responds 200 with a JSON array
body, `run_query` returns that array — not a dictionary — so the claim
that `run_query` always returns a dictionary is false as stated. -/
theorem run_query_not_always_dict :
    jIsObj (run_query ⟨none⟩ (.ok ⟨200, .jarr []⟩)) = false := rfl

/-- C9 (amended): `run_query` is total; on a raised exception it returns a
dictionary whose `error` key holds the exception text and whose status is
not `completed`, and on a parsed response it returns the body as-is (a
dictionary exactly when the service sent a JSON object). -/
theorem run_query_total_spec (s : MB) (e : String) (r : HttpResponse) :
    run_query s (.error e) = .jobj [("error", .jstr e)] ∧
    jIsObj (run_query s (.error e)) = true ∧
    jget (run_query s (.error e)) "error" = some (.jstr e) ∧
    completedQ (run_query s (.error e)) = false ∧
    run_query s (.ok r) = r.json :=
  ⟨rfl, rfl, rfl, rfl, rfl⟩

/-! ### Concrete run environments -/

/-- A dataset response that completes with an empty row list. -/
def respCompleted : RespE :=
  .ok ⟨200, .jobj [("status", .jstr "completed"), ("data", .jobj [("rows", .jarr [])])]⟩

/-- A dataset response whose status is not `completed`. -/
def respFailedTest : RespE :=
  .ok ⟨200, .jobj [("status", .jstr "failed"), ("error", .jstr "table not found")]⟩

/-- A run in which every setup gate passes, the first bounded-table battery
query fails, and every other dataset call — the streaming test included —
completes. -/
def env0 : Env :=
  ⟨true, [],
   .jobj [("setup-token", .jstr "tok")],
   .ok ⟨200, .jobj [("id", .jstr "sess")]⟩,
   .error "unused",
   .ok ⟨200, .jobj [("id", .jnum 1)]⟩,
   .ok ⟨200, .jobj []⟩,
   .ok ⟨200, .jobj [("tables",
     .jarr [.jobj [("name", .jstr "users"), ("fields", .jarr [])]])]⟩,
   fun i => if i = 0 then respFailedTest else respCompleted⟩

/-- `env0` with the five catalog exploration calls (indices 17-21) replaced
by transport errors. -/
def env0cat : Env :=
  ⟨true, [],
   .jobj [("setup-token", .jstr "tok")],
   .ok ⟨200, .jobj [("id", .jstr "sess")]⟩,
   .error "unused",
   .ok ⟨200, .jobj [("id", .jnum 1)]⟩,
   .ok ⟨200, .jobj []⟩,
   .ok ⟨200, .jobj [("tables",
     .jarr [.jobj [("name", .jstr "users"), ("fields", .jarr [])]])]⟩,
   fun i =>
     if 17 ≤ i ∧ i ≤ 21 then .error "catalog down"
     else if i = 0 then respFailedTest else respCompleted⟩

/-- C1 (divergence witness): in `env0` the first battery query fails, yet
because the streaming test completes, line 512 overwrites `all_passed` with
`True` and the process exits with code 0 — against both the spec and the
aggregation pattern the rest of main uses. -/
theorem streaming_success_masks_failures :
    (testOutcome (run_query (mainState env0) (env0.datasetResps 0))).passed = false ∧
    batteryFlag (mainState env0) env0.datasetResps = false ∧
    streamingOk env0 = true ∧
    (mainRun env0).exitCode = 0 :=
  ⟨rfl, rfl, rfl, rfl⟩

/-- C2: only the four setup-critical gates (readiness, admin setup, database
registration, empty table list) end the run early, always with exit code 1
and before any dataset call; once they pass, all 23 dataset calls are issued
no matter how the individual queries fare, a failed battery query is
recorded as `all_passed = False`, and the outcome of the sync-trigger call
has no effect on the exit code or on how far the run gets. -/
theorem failure_aggregation_spec (env : Env) (hwf : wfEnv env = true) :
    (gateWait env = true → (adminOutcome env).ok = true → dbGate env = true →
      tablesGate env = true → (mainRun env).datasetCalls = 23) ∧
    ((mainRun env).datasetCalls ≠ 23 →
      (mainRun env).datasetCalls = 0 ∧ (mainRun env).exitCode = 1) ∧
    (∀ i, i < 12 →
      (testOutcome (run_query (mainState env) (env.datasetResps i))).passed = false →
      batteryFlag (mainState env) env.datasetResps = false) ∧
    (∀ env2 : Env, env2.skip_wait = env.skip_wait → env2.polls = env.polls →
      env2.props = env.props → env2.setupResp = env.setupResp →
      env2.loginResp = env.loginResp → env2.dbResp = env.dbResp →
      env2.metaResp = env.metaResp → env2.datasetResps = env.datasetResps →
      (mainRun env2).exitCode = (mainRun env).exitCode ∧
      (mainRun env2).datasetCalls = (mainRun env).datasetCalls) := by
  refine ⟨?_, ?_, ?_, ?_⟩
  · intro hg ha hd ht
    simp [mainRun, hg, ha, hd, ht]
  · intro hne
    unfold mainRun at hne ⊢
    split_ifs at hne ⊢ <;> simp_all
  · intro i hi hfail
    unfold batteryFlag
    rw [foldl_and_eq_all]
    refine Bool.and_eq_false_iff.mpr (Or.inr ?_)
    refine List.all_eq_false.mpr ⟨i, List.mem_range.mpr hi, ?_⟩
    simp [hfail]
  · intro env2 h1 h2 h3 h4 h5 h6 h7 h8
    have hgw : gateWait env2 = gateWait env := by unfold gateWait; rw [h1, h2]
    have hao : adminOutcome env2 = adminOutcome env := by
      unfold adminOutcome; rw [h3, h4, h5]
    have hms : mainState env2 = mainState env := by unfold mainState; rw [hao]
    have hdb : dbGate env2 = dbGate env := by unfold dbGate; rw [hms, h6]
    have htb : tablesGate env2 = tablesGate env := by unfold tablesGate; rw [hms, h7]
    have hst : streamingOk env2 = streamingOk env := by
      unfold streamingOk; rw [hms, h8]
    have hff : finalFlag env2 = finalFlag env := by
      unfold finalFlag; rw [hst, hms, h8]
    have hmr : mainRun env2 = mainRun env := by
      simp only [mainRun, hgw, hao, hms, hdb, htb, hff]
    exact ⟨congrArg RunResult.exitCode hmr, congrArg RunResult.datasetCalls hmr⟩

/-- Witness for C2: in `env0` all gates pass, so all 23 dataset calls run
even though the first battery query fails. -/
theorem failure_aggregation_spec_witness :
    (mainRun env0).datasetCalls = 23 :=
  (failure_aggregation_spec env0 rfl).1 rfl rfl rfl rfl

/-- C7: `self.session_token` is written at most once per run — by the
successful bootstrap or login inside `setup_admin_user` — and every later
authenticated request carries exactly the written value as its
`X-Metabase-Session` header: when the readiness or admin gate fails the
trace is empty, and otherwise it is the single write followed only by
authenticated requests bearing that same token. -/
theorem session_token_single_write (env : Env) (hwf : wfEnv env = true) :
    ((gateWait env = false ∨ (adminOutcome env).ok = false) →
      (mainRun env).trace = []) ∧
    (gateWait env = true → (adminOutcome env).ok = true →
      ∃ k, (mainRun env).trace
        = Event.authWrite ((adminOutcome env).token)
            :: List.replicate k (Event.authedRequest ((adminOutcome env).token))) := by
  constructor
  · intro h
    rcases h with h | h
    · simp [mainRun, h]
    · by_cases hg : gateWait env = false
      · simp [mainRun, hg]
      · simp [mainRun, hg, h]
  · intro hg ha
    unfold mainRun
    rw [if_neg (by simp [hg]), if_neg (by simp [ha])]
    by_cases hd : dbGate env = false
    · exact ⟨1, by simp [hd, headersOf, mainState]⟩
    · by_cases ht : tablesGate env = false
      · exact ⟨3, by simp [hd, ht, headersOf, mainState]⟩
      · exact ⟨26, by simp [hd, ht, headersOf, mainState]⟩

/-- Witness for C7: the trace of the full run of `env0` opens with the
single write of the admin token. -/
theorem session_token_single_write_witness :
    ((mainRun env0).trace).head?
      = some (Event.authWrite ((adminOutcome env0).token)) := by
  obtain ⟨k, hk⟩ := (session_token_single_write env0 rfl).2 rfl rfl
  rw [hk]
  rfl

/-- C10: the five catalog and schema exploration calls (dataset indices
17-21) never touch `all_passed`: two runs that agree everywhere except on
those five responses produce the same run outcome — the same exit code, the
same flag, the same trace. -/
theorem catalog_queries_no_effect (env env2 : Env)
    (hwf : wfEnv env = true) (hwf2 : wfEnv env2 = true)
    (h1 : env2.skip_wait = env.skip_wait) (h2 : env2.polls = env.polls)
    (h3 : env2.props = env.props) (h4 : env2.setupResp = env.setupResp)
    (h5 : env2.loginResp = env.loginResp) (h6 : env2.dbResp = env.dbResp)
    (h7 : env2.metaResp = env.metaResp)
    (hq : ∀ i, i < 17 ∨ 21 < i → env2.datasetResps i = env.datasetResps i) :
    mainRun env2 = mainRun env := by
  have hgw : gateWait env2 = gateWait env := by unfold gateWait; rw [h1, h2]
  have hao : adminOutcome env2 = adminOutcome env := by
    unfold adminOutcome; rw [h3, h4, h5]
  have hms : mainState env2 = mainState env := by unfold mainState; rw [hao]
  have hdb : dbGate env2 = dbGate env := by unfold dbGate; rw [hms, h6]
  have htb : tablesGate env2 = tablesGate env := by unfold tablesGate; rw [hms, h7]
  have hbat : batteryFlag (mainState env2) env2.datasetResps
      = batteryFlag (mainState env) env.datasetResps := by
    rw [hms]
    unfold batteryFlag
    rw [foldl_and_eq_all, foldl_and_eq_all]
    congr 1
    apply all_congr_of_mem
    intro i hi
    rw [hq i (Or.inl (by have := List.mem_range.mp hi; omega))]
  have hddl : ddlFlag (mainState env2) env2.datasetResps
      = ddlFlag (mainState env) env.datasetResps := by
    rw [hms]
    unfold ddlFlag
    rw [foldl_and_eq_all, foldl_and_eq_all]
    congr 1
    apply all_congr_of_mem
    intro i hi
    rw [hq (12 + i) (Or.inl (by have := List.mem_range.mp hi; omega))]
  have hst : streamingOk env2 = streamingOk env := by
    unfold streamingOk
    rw [hms, hq 22 (Or.inr (by omega))]
  have hff : finalFlag env2 = finalFlag env := by
    unfold finalFlag
    rw [hst, hbat, hddl]
  simp only [mainRun, hgw, hao, hms, hdb, htb, hff]

/-- Witness for C10: failing all five catalog calls of `env0` leaves the
run outcome unchanged. -/
theorem catalog_queries_no_effect_witness :
    mainRun env0cat = mainRun env0 := by
  refine catalog_queries_no_effect env0 env0cat rfl rfl rfl rfl rfl rfl rfl rfl rfl ?_
  intro i hi
  show (if 17 ≤ i ∧ i ≤ 21 then Except.error "catalog down"
      else if i = 0 then respFailedTest else respCompleted)
    = (if i = 0 then respFailedTest else respCompleted)
  rw [if_neg (by omega)]
